import Mathlib

/-!
Verification of the EZComponents creator widgets (button, select-menu, embed).

This file shallowly embeds the change-detection / notification core of the three
creator classes (`EZButtonCreator`, `EZSelectMenuCreator`, `EZEmbedCreator`,
files src/components/buttonCreator.js, selectMenuCreator.js, embedCreator.js)
and proves, or refutes, the frozen claims about them.

Modelling conventions:
* JavaScript plain values are embedded as the inductive type `JVal`
  (strings, numbers, booleans, null, undefined, NaN, arrays, objects-as-
  association-lists in insertion order).
* The widget data objects, whose key sets are fixed by the constructors,
  are embedded as Lean structures (`ButtonData`, `SelectData`, `EmbedData`)
  with an encoding into `JVal` where the generic algorithms need it.
* Mutable creator state is the pair of `currentData` and `lastKnownData`
  (`CState`); methods become functions from state to state paired with the
  list of published `update` payloads.
* Object identity / aliasing (needed for the snapshot non-aliasing claim)
  is modelled by an explicit address-indexed store (`BHeap`), since a pure
  value model cannot express aliasing.
-/

/-- A JavaScript plain value: the values that can appear in the creators'
data objects and change sets.  Objects keep their key insertion order. -/
inductive JVal where
  | str (s : String)
  | num (n : Int)
  | bool (b : Bool)
  | null
  | undef
  | nan
  | obj (l : List (String × JVal))
  | arr (l : List JVal)

/-- `typeof v === 'object'` in JavaScript: true for objects, arrays and null. -/
def typeofObject : JVal → Bool
  | JVal.obj _ => true
  | JVal.arr _ => true
  | JVal.null => true
  | _ => false

/-- `Array.isArray(v)`. -/
def isArray : JVal → Bool
  | JVal.arr _ => true
  | _ => false

/-- Whether a value is the JavaScript `undefined`. -/
def isUndef : JVal → Bool
  | JVal.undef => true
  | _ => false

/-- JavaScript strict equality `===` restricted to the cases the diff code can
reach: at least one operand is not object-typed, so only primitives are
compared by value.  `NaN === NaN` is false.  Two objects or two arrays are
compared by reference in JavaScript; those cases are unreachable in
`compareObjects` (its first branch requires a non-object operand), so the
catch-all returns false. -/
def jsStrictEq : JVal → JVal → Bool
  | JVal.str a, JVal.str b => a = b
  | JVal.num a, JVal.num b => a = b
  | JVal.bool a, JVal.bool b => a = b
  | JVal.null, JVal.null => true
  | JVal.undef, JVal.undef => true
  | _, _ => false

/-- Quote a string as JSON.  Escaping is restricted to backslash and double
quote, which suffices for the identifier-like strings in the widget data. -/
def jsonQuoteChar (c : Char) : String :=
  if c = '"' then "\\\"" else if c = '\\' then "\\\\" else String.mk [c]

/-- JSON string literal for `s`. -/
def jsonQuote (s : String) : String :=
  "\"" ++ String.join (s.data.map jsonQuoteChar) ++ "\""

mutual
/-- `JSON.stringify(v)`: `none` models the JavaScript result `undefined`
(stringifying `undefined` itself); `NaN` serializes as `null`; object members
whose value is `undefined` are dropped; array elements that are `undefined`
serialize as `null`. -/
def jsonStr : JVal → Option String
  | JVal.undef => none
  | JVal.nan => some "null"
  | JVal.null => some "null"
  | JVal.bool b => some (cond b "true" "false")
  | JVal.num n => some (toString n)
  | JVal.str s => some (jsonQuote s)
  | JVal.arr l => some ("[" ++ String.intercalate "," (jsonStrArr l) ++ "]")
  | JVal.obj l => some ("\x7b" ++ String.intercalate "," (jsonStrObj l) ++ "\x7d")

/-- Serialized elements of an array (undefined becomes null). -/
def jsonStrArr : List JVal → List String
  | [] => []
  | v :: rest => ((jsonStr v).getD "null") :: jsonStrArr rest

/-- Serialized members of an object (undefined-valued members dropped). -/
def jsonStrObj : List (String × JVal) → List String
  | [] => []
  | (k, v) :: rest =>
    match jsonStr v with
    | some s => (jsonQuote k ++ ":" ++ s) :: jsonStrObj rest
    | none => jsonStrObj rest
end

/-- `o.hasOwnProperty(k)` for the embedded values: own keys of an object, or
index strings of an array.  Primitives and null have no own properties (the
real `null.hasOwnProperty` throws; that call site is unreachable for the
well-shaped data diffed here). -/
def jsHasOwn : JVal → String → Bool
  | JVal.obj l, k => l.any (fun kv => kv.1 = k)
  | JVal.arr l, k =>
    match k.toNat? with
    | some i => i < l.length
    | none => false
  | _, _ => false

/-- Property read `o[k]` for own properties, `undefined` otherwise. -/
def jsGetOwn : JVal → String → JVal
  | JVal.obj l, k => ((l.find? (fun kv => kv.1 = k)).map Prod.snd).getD JVal.undef
  | JVal.arr l, k =>
    match k.toNat? with
    | some i => l.getD i JVal.undef
    | none => JVal.undef
  | _, _ => JVal.undef

/-- The keys enumerated by `for (const key in v)`: own enumerable keys of an
object, index strings of an array, nothing otherwise. -/
def forInKeys : JVal → List String
  | JVal.obj l => l.map Prod.fst
  | JVal.arr l => (List.range l.length).map toString
  | _ => []

/-- `path.slice(1)` on the ASCII field paths built by the embed differ. -/
def jsSlice1 (s : String) : String := String.mk (s.data.drop 1)

mutual
/-- `compareObjects(lastKnown, current, path)` from
src/components/embedCreator.js lines 417-441, the recursive differ used by the
embed creator.  Accumulated dictionary insertion order is modelled by list
append in the same order the source assigns keys. -/
def compareObjects (lk c : JVal) (path : String) : List (String × JVal) :=
  if ¬ (typeofObject lk && typeofObject c) then
    (if jsStrictEq lk c then [] else [(jsSlice1 path, c)])
  else if isArray lk && isArray c then
    (if jsonStr lk = jsonStr c then [] else [(jsSlice1 path, c)])
  else
    (match c with
     | JVal.obj l => comparePairs lk l path
     | JVal.arr l => compareIdxPairs lk l 0 path
     | _ => []) ++
    (forInKeys lk).filterMap (fun k =>
      if jsHasOwn c k then none else some (jsSlice1 (path ++ "." ++ k), JVal.undef))

/-- The `for (const key in current)` loop of `compareObjects`, for the object
case: recurse on keys the snapshot also has, record additions directly. -/
def comparePairs (lk : JVal) (l : List (String × JVal)) (path : String) :
    List (String × JVal) :=
  match l with
  | [] => []
  | (k, v) :: rest =>
    (if jsHasOwn lk k then compareObjects (jsGetOwn lk k) v (path ++ "." ++ k)
     else [(jsSlice1 (path ++ "." ++ k), v)]) ++ comparePairs lk rest path

/-- The same loop when `current` is an array (for-in enumerates index
strings); reachable only when snapshot and current disagree on arrayness. -/
def compareIdxPairs (lk : JVal) (l : List JVal) (i : Nat) (path : String) :
    List (String × JVal) :=
  match l with
  | [] => []
  | v :: rest =>
    (if jsHasOwn lk (toString i)
     then compareObjects (jsGetOwn lk (toString i)) v (path ++ "." ++ toString i)
     else [(jsSlice1 (path ++ "." ++ toString i), v)]) ++
    compareIdxPairs lk rest (i + 1) path
end

/-! ## Button creator data model (src/components/buttonCreator.js) -/

/-- The button widget data object (constructor lines 27-33): keys in
insertion order `text, style, emoji, url, disabled`. -/
structure ButtonData where
  text : String
  style : String
  emoji : String
  url : String
  disabled : Bool
deriving DecidableEq

/-- Encoding of a schema-conforming button data object as a plain value. -/
def encodeButton (d : ButtonData) : JVal :=
  JVal.obj [("text", JVal.str d.text), ("style", JVal.str d.style),
    ("emoji", JVal.str d.emoji), ("url", JVal.str d.url),
    ("disabled", JVal.bool d.disabled)]

/-- `_getChangedData()` of the button creator (lines 453-463), specialized to
two schema-conforming data objects: the loop `for (const key in currentData)`
visits the five schema keys in insertion order and includes a key iff
`JSON.stringify(currentData[key]) !== JSON.stringify(lastKnownData[key])`.
On two strings (or two booleans) stringify inequality coincides with value
inequality, which is how the comparison is written here. -/
def buttonGetChangedData (last curr : ButtonData) : List (String × JVal) :=
  (if curr.text ≠ last.text then [("text", JVal.str curr.text)] else []) ++
  (if curr.style ≠ last.style then [("style", JVal.str curr.style)] else []) ++
  (if curr.emoji ≠ last.emoji then [("emoji", JVal.str curr.emoji)] else []) ++
  (if curr.url ≠ last.url then [("url", JVal.str curr.url)] else []) ++
  (if curr.disabled ≠ last.disabled then [("disabled", JVal.bool curr.disabled)] else [])

/-- `_getChangedData()` of the button creator (lines 453-463) over arbitrary
plain objects (association lists): includes key `k` of `current` iff the
serializations of `current[k]` and `lastKnown[k]` differ; keys only in
`lastKnown` are never visited by the `for (const key in this.currentData)`
loop. -/
def buttonGetChangedDataG (last curr : List (String × JVal)) :
    List (String × JVal) :=
  curr.filter (fun kv =>
    jsonStr kv.2 ≠ jsonStr (jsGetOwn (JVal.obj last) kv.1))

/-! ## Select-menu creator data model (src/components/selectMenuCreator.js) -/

/-- One select-menu option (`addOption`, lines 648-654): keys in insertion
order `label, title, value, description, emoji`. -/
structure SOption where
  label : String
  title : String
  value : String
  description : String
  emoji : String
deriving DecidableEq

/-- The select-menu widget data object (constructor lines 27-32). -/
structure SelectData where
  placeholder : String
  options : List SOption
  disabled : Bool
  value : Option String
deriving DecidableEq

/-- Encoding of an option object as a plain value. -/
def encodeSOption (o : SOption) : JVal :=
  JVal.obj [("label", JVal.str o.label), ("title", JVal.str o.title),
    ("value", JVal.str o.value), ("description", JVal.str o.description),
    ("emoji", JVal.str o.emoji)]

/-- Encoding of the options array. -/
def encodeSOptions (l : List SOption) : JVal := JVal.arr (l.map encodeSOption)

/-- The scalar `value` field (`null` when unset) as a plain value. -/
def encodeSValue : Option String → JVal
  | none => JVal.null
  | some s => JVal.str s

/-- `_getChangedData()` of the select-menu creator (lines 440-456): the three
scalar keys `placeholder, disabled, value` are compared with `!==` (value
inequality for these primitive fields); the `options` array is compared
atomically by `JSON.stringify` and included wholesale when the serializations
differ. -/
def selectGetChangedData (last curr : SelectData) : List (String × JVal) :=
  (if curr.placeholder ≠ last.placeholder
   then [("placeholder", JVal.str curr.placeholder)] else []) ++
  (if curr.disabled ≠ last.disabled
   then [("disabled", JVal.bool curr.disabled)] else []) ++
  (if curr.value ≠ last.value
   then [("value", encodeSValue curr.value)] else []) ++
  (if jsonStr (encodeSOptions curr.options) ≠ jsonStr (encodeSOptions last.options)
   then [("options", encodeSOptions curr.options)] else [])

/-! ## Embed creator data model (src/components/embedCreator.js) -/

/-- The embed author sub-object (constructor line 34). -/
structure EAuthor where
  name : String
  iconUrl : String
deriving DecidableEq

/-- The embed footer sub-object (constructor line 38). -/
structure EFooter where
  text : String
  timestamp : Bool
deriving DecidableEq

/-- One embed field (`_updateFieldsData`, lines 292-296). -/
structure EField where
  name : String
  value : String
  inline : Bool
deriving DecidableEq

/-- The embed widget data object (constructor lines 30-39): keys in insertion
order `title, description, color, author, thumbnail, image, fields, footer`. -/
structure EmbedData where
  title : String
  description : String
  color : String
  author : EAuthor
  thumbnail : String
  image : String
  fields : List EField
  footer : EFooter
deriving DecidableEq

/-- Encoding of one embed field as a plain value. -/
def encodeEField (f : EField) : JVal :=
  JVal.obj [("name", JVal.str f.name), ("value", JVal.str f.value),
    ("inline", JVal.bool f.inline)]

/-- Encoding of a schema-conforming embed data object as a plain value. -/
def encodeEmbed (d : EmbedData) : JVal :=
  JVal.obj [("title", JVal.str d.title),
    ("description", JVal.str d.description),
    ("color", JVal.str d.color),
    ("author", JVal.obj [("name", JVal.str d.author.name),
      ("iconUrl", JVal.str d.author.iconUrl)]),
    ("thumbnail", JVal.str d.thumbnail),
    ("image", JVal.str d.image),
    ("fields", JVal.arr (d.fields.map encodeEField)),
    ("footer", JVal.obj [("text", JVal.str d.footer.text),
      ("timestamp", JVal.bool d.footer.timestamp)])]

/-- `_getChangedData()` of the embed creator (lines 414-445): runs the
recursive `compareObjects` on (snapshot, current) with the empty root path. -/
def embedGetChangedData (last curr : EmbedData) : List (String × JVal) :=
  compareObjects (encodeEmbed last) (encodeEmbed curr) ""

/-! ## Change notifier (identical `_notifyUpdate` in all three creators:
buttonCreator.js 440-451, selectMenuCreator.js 427-438, embedCreator.js
405-412) -/

/-- The notifier-owned state: the live `currentData` and the snapshot
`lastKnownData`.  In this value-level model the JSON round-trip deep copy
`JSON.parse(JSON.stringify(currentData))` is copying of the value; the
aliasing aspect of the copy is modelled separately by the heap model below. -/
structure CState (δ : Type) where
  currentData : δ
  lastKnownData : δ
deriving DecidableEq

/-- `_notifyUpdate()`: compute `changes = _getChangedData()`; if the change
set has at least one key, first replace the snapshot with a deep copy of the
current data, then `trigger('update', changes)`; otherwise do nothing.
Returns the successor state and the list of published `update` payloads. -/
def notifyUpdate {δ : Type} (diffFn : δ → δ → List (String × JVal))
    (s : CState δ) : CState δ × List (List (String × JVal)) :=
  let changes := diffFn s.lastKnownData s.currentData
  if changes.length > 0 then
    (CState.mk s.currentData s.currentData, [changes])
  else (s, [])

/-! ## setData and mutation methods -/

/-- A partial button data object, as passed to `setData(newData)`. -/
structure BPatch where
  text : Option String
  style : Option String
  emoji : Option String
  url : Option String
  disabled : Option Bool

/-- The spread merge `{ ...this.currentData, ...newData }` on button data. -/
def mergeButton (d : ButtonData) (p : BPatch) : ButtonData :=
  ButtonData.mk (p.text.getD d.text) (p.style.getD d.style)
    (p.emoji.getD d.emoji) (p.url.getD d.url) (p.disabled.getD d.disabled)

/-- `setData(newData)` of the button creator (lines 797-802): replaces
`currentData` with the spread merge, re-renders the DOM
(`_createDOM`/`_setupEventListeners`, presentation-only) and returns `this`.
It does not call `_notifyUpdate`, so no `update` event is published and the
snapshot is left as it was. -/
def buttonSetData (s : CState ButtonData) (p : BPatch) :
    CState ButtonData × List (List (String × JVal)) :=
  (CState.mk (mergeButton s.currentData p) s.lastKnownData, [])

/-- A partial select-menu data object for `setData(newData)`. -/
structure SPatch where
  placeholder : Option String
  options : Option (List SOption)
  disabled : Option Bool
  value : Option (Option String)

/-- The spread merge `{ ...this.currentData, ...newData }` on select data. -/
def mergeSelect (d : SelectData) (p : SPatch) : SelectData :=
  SelectData.mk (p.placeholder.getD d.placeholder) (p.options.getD d.options)
    (p.disabled.getD d.disabled) (p.value.getD d.value)

/-- `setData(newData)` of the select-menu creator (lines 719-725): merge,
re-render, return `this`; no `_notifyUpdate` call. -/
def selectSetData (s : CState SelectData) (p : SPatch) :
    CState SelectData × List (List (String × JVal)) :=
  (CState.mk (mergeSelect s.currentData p) s.lastKnownData, [])

/-- A partial embed data object for `setData(newData)`.  The spread merge is
shallow: a supplied `author` or `footer` replaces the whole sub-object. -/
structure EPatch where
  title : Option String
  description : Option String
  color : Option String
  author : Option EAuthor
  thumbnail : Option String
  image : Option String
  fields : Option (List EField)
  footer : Option EFooter

/-- The spread merge `{ ...this.currentData, ...newData }` on embed data. -/
def mergeEmbed (d : EmbedData) (p : EPatch) : EmbedData :=
  EmbedData.mk (p.title.getD d.title) (p.description.getD d.description)
    (p.color.getD d.color) (p.author.getD d.author)
    (p.thumbnail.getD d.thumbnail) (p.image.getD d.image)
    (p.fields.getD d.fields) (p.footer.getD d.footer)

/-- `setData(newData)` of the embed creator (lines 759-764): merge,
re-render, return `this`; no `_notifyUpdate` call. -/
def embedSetData (s : CState EmbedData) (p : EPatch) :
    CState EmbedData × List (List (String × JVal)) :=
  (CState.mk (mergeEmbed s.currentData p) s.lastKnownData, [])

/-- `deleteOption(index)` of the select-menu creator (lines 664-672): when
`0 <= index < options.length` remove the option at `index` (`splice(index,1)`),
re-render and `_notifyUpdate()`; otherwise do nothing.  The index is an
integer as in the source (`parseInt` at the call sites). -/
def deleteOption (s : CState SelectData) (index : Int) :
    CState SelectData × List (List (String × JVal)) :=
  if 0 ≤ index ∧ index < (s.currentData.options.length : Int) then
    let cur := SelectData.mk s.currentData.placeholder
      (s.currentData.options.eraseIdx index.toNat)
      s.currentData.disabled s.currentData.value
    notifyUpdate selectGetChangedData (CState.mk cur s.lastKnownData)
  else (s, [])

/-- `moveOption(index, direction)` of the select-menu creator (lines
674-689): when both `index` and `newIndex = index + direction` are in range
(both bounds checked against the pre-splice length), remove the option at
`index` and re-insert it at `newIndex`, re-render and `_notifyUpdate()`;
otherwise do nothing. -/
def moveOption (s : CState SelectData) (index direction : Int) :
    CState SelectData × List (List (String × JVal)) :=
  if 0 ≤ index ∧ index < (s.currentData.options.length : Int) then
    let newIndex := index + direction
    if 0 ≤ newIndex ∧ newIndex < (s.currentData.options.length : Int) then
      let opt := s.currentData.options.getD index.toNat (SOption.mk "" "" "" "" "")
      let removed := s.currentData.options.eraseIdx index.toNat
      let cur := SelectData.mk s.currentData.placeholder
        (removed.insertIdx newIndex.toNat opt)
        s.currentData.disabled s.currentData.value
      notifyUpdate selectGetChangedData (CState.mk cur s.lastKnownData)
    else (s, [])
  else (s, [])

/-! ## Embed toJSON (src/components/embedCreator.js lines 766-801) -/

/-- Whether a character is a hexadecimal digit. -/
def isHexDigitC (c : Char) : Bool :=
  ('0' ≤ c && c ≤ '9') || ('a' ≤ c && c ≤ 'f') || ('A' ≤ c && c ≤ 'F')

/-- Numeric value of a hexadecimal digit. -/
def hexDigitVal (c : Char) : Nat :=
  if '0' ≤ c && c ≤ '9' then c.toNat - '0'.toNat
  else if 'a' ≤ c && c ≤ 'f' then c.toNat - 'a'.toNat + 10
  else if 'A' ≤ c && c ≤ 'F' then c.toNat - 'A'.toNat + 10
  else 0

/-- Value of a hexadecimal digit string, most significant digit first. -/
def hexListVal (l : List Char) : Nat :=
  l.foldl (fun acc c => 16 * acc + hexDigitVal c) 0

/-- `parseInt(s, 16)`: parse the maximal leading run of hexadecimal digits;
`none` models the result `NaN` when no digit is found.  (The sign, whitespace
and `0x`-prefix handling of the real `parseInt` is not modelled: the inputs
here are `#RRGGBB` color strings with the `#` already removed.) -/
def jsParseIntHexChars (l : List Char) : Option Nat :=
  let ds := l.takeWhile isHexDigitC
  if ds.isEmpty then none else some (hexListVal ds)

/-- `s.replace('#', '')`: remove the first occurrence of `#`. -/
def jsReplaceFirstHash : List Char → List Char
  | [] => []
  | c :: rest => if c = '#' then rest else c :: jsReplaceFirstHash rest

/-- Lines 767-788 of `toJSON()`: build the wire-format embed object, with
`undefined` (here `JVal.undef`) for the pruned-to-be optional entries.  The
truthiness tests on strings are emptiness tests; `field.inline !== false` on a
boolean is the boolean itself; `footer.text || ''` equals `footer.text` for a
string.  `new Date().toISOString()` is the parameter `now`. -/
def buildEmbedJson (d : EmbedData) (now : String) : List (String × JVal) :=
  [("title", if d.title = "" then JVal.undef else JVal.str d.title),
   ("description",
    if d.description = "" then JVal.undef else JVal.str d.description),
   ("color",
    if d.color = "" then JVal.undef
    else match jsParseIntHexChars (jsReplaceFirstHash d.color.data) with
      | some n => JVal.num (Int.ofNat n)
      | none => JVal.nan),
   ("author",
    if d.author.name = "" then JVal.undef
    else JVal.obj [("name", JVal.str d.author.name),
      ("icon_url",
       if d.author.iconUrl = "" then JVal.undef else JVal.str d.author.iconUrl)]),
   ("thumbnail",
    if d.thumbnail = "" then JVal.undef
    else JVal.obj [("url", JVal.str d.thumbnail)]),
   ("image",
    if d.image = "" then JVal.undef
    else JVal.obj [("url", JVal.str d.image)]),
   ("fields",
    if d.fields.length > 0 then JVal.arr (d.fields.map encodeEField)
    else JVal.undef),
   ("footer",
    if d.footer.text ≠ "" || d.footer.timestamp
    then JVal.obj [("text", JVal.str d.footer.text)] else JVal.undef),
   ("timestamp", if d.footer.timestamp then JVal.str now else JVal.undef)]

/-- The effect of the stripping loop (lines 790-798 of `toJSON()`) on a
single entry: delete it if its value is `undefined`; if its value is an
object (non-array), delete the `undefined`-valued sub-keys and delete the
whole entry if that leaves it empty; keep anything else as is. -/
def stripOne (k : String) (v : JVal) : Option (String × JVal) :=
  if isUndef v then none
  else match v with
    | JVal.obj sl =>
      if (sl.filter (fun p => ¬ isUndef p.2)).isEmpty then none
      else some (k, JVal.obj (sl.filter (fun p => ¬ isUndef p.2)))
    | _ => some (k, v)

/-- Lines 790-798 of `toJSON()`: the stripping loop over all entries. -/
def stripEmbedJson : List (String × JVal) → List (String × JVal)
  | [] => []
  | (k, v) :: rest =>
    match stripOne k v with
    | some kv => kv :: stripEmbedJson rest
    | none => stripEmbedJson rest

/-- `toJSON()` of the embed creator as a method on the creator state: it only
reads `currentData` (the body constructs a fresh local object), so the state
is returned unchanged together with the wire-format object. -/
def embedToJSONMethod (s : CState EmbedData) (now : String) :
    CState EmbedData × List (String × JVal) :=
  (s, stripEmbedJson (buildEmbedJson s.currentData now))

/-! ## Event bus (identical `on`/`off`/`trigger` in the creators:
buttonCreator.js 67-87, selectMenuCreator.js 53-73, embedCreator.js 54-70) -/

/-- A registered handler, identified by reference; `off` removes by `!==`. -/
abbrev HandlerId := Nat

/-- The handler registry `this.eventHandlers = { update: [] }` (buttonCreator
lines 23-25): its only own key is `update`; `on` pushes into the existing
array and never adds keys, so the own-key set is invariant. -/
structure EventHandlers where
  update : List HandlerId
deriving DecidableEq

/-- The own properties of `Object.prototype` (ES2023).  A property read
`this.eventHandlers[name]` that misses the own keys continues along the
prototype chain and finds these, all of them functions except the accessor
`__proto__` (which yields `Object.prototype` itself) — every one of them a
truthy value. -/
def objectProtoProps : List String :=
  ["constructor", "hasOwnProperty", "isPrototypeOf", "propertyIsEnumerable",
   "toLocaleString", "toString", "valueOf", "__proto__", "__defineGetter__",
   "__defineSetter__", "__lookupGetter__", "__lookupSetter__"]

/-- Result of the property read `this.eventHandlers[event]`: the `update`
array for `"update"`, a truthy inherited non-array value for
`Object.prototype` member names, `undefined` otherwise. -/
inductive EHLookup where
  | updateArr (hs : List HandlerId)
  | protoVal
  | undef

/-- The property read, modelling JavaScript prototype-chain lookup on the
plain object `{ update: [] }`. -/
def ehLookup (b : EventHandlers) (event : String) : EHLookup :=
  if event = "update" then EHLookup.updateArr b.update
  else if event ∈ objectProtoProps then EHLookup.protoVal
  else EHLookup.undef

/-- The runtime TypeError raised by calling an array method (`push`,
`filter`, `forEach`) on an inherited non-array value. -/
inductive JsTypeError where
  | notAFunction
deriving DecidableEq

/-- `on(event, callback)` (buttonCreator lines 67-72): if the lookup is
truthy, `push` the callback onto it (a TypeError if the value is not an
array) ; otherwise fall through; return `this`. -/
def busOn (b : EventHandlers) (event : String) (h : HandlerId) :
    Except JsTypeError EventHandlers :=
  match ehLookup b event with
  | EHLookup.updateArr hs => Except.ok (EventHandlers.mk (hs ++ [h]))
  | EHLookup.protoVal => Except.error JsTypeError.notAFunction
  | EHLookup.undef => Except.ok b

/-- `off(event, callback)` (lines 74-80): if the lookup is truthy, replace
the array by `filter(cb => cb !== callback)`; otherwise fall through. -/
def busOff (b : EventHandlers) (event : String) (h : HandlerId) :
    Except JsTypeError EventHandlers :=
  match ehLookup b event with
  | EHLookup.updateArr hs =>
    Except.ok (EventHandlers.mk (hs.filter (fun cb => cb ≠ h)))
  | EHLookup.protoVal => Except.error JsTypeError.notAFunction
  | EHLookup.undef => Except.ok b

/-- `trigger(event, data)` (lines 82-87) as far as handler selection goes: if
the lookup is truthy, `forEach` over it (the returned list is the array of
handlers that will be invoked, in order); otherwise nothing is invoked. -/
def busTrigger (b : EventHandlers) (event : String) :
    Except JsTypeError (List HandlerId) :=
  match ehLookup b event with
  | EHLookup.updateArr hs => Except.ok hs
  | EHLookup.protoVal => Except.error JsTypeError.notAFunction
  | EHLookup.undef => Except.ok []

/-- The body of `trigger`: `handlers.forEach(callback => callback(data))`
with handlers as functions that either return or throw.  There is no
try/catch, so a thrown exception aborts the iteration and propagates out of
`trigger`.  Returns how many handlers were invoked (in list order) and the
escaping exception, if any. -/
def jsForEach (hs : List (JVal → Except String Unit)) (payload : JVal) :
    Nat × Option String :=
  match hs with
  | [] => (0, none)
  | h :: rest =>
    match h payload with
    | Except.ok _ =>
      let r := jsForEach rest payload
      (r.1 + 1, r.2)
    | Except.error e => (1, some e)

/-! ## Heap model for snapshot non-aliasing (buttonCreator.js lines 39-40,
440-451).

The creator keeps `currentData` and `lastKnownData` as two distinct objects:
the snapshot is created by `JSON.parse(JSON.stringify(currentData))`, which
allocates a fresh object.  Mutation methods write fields of the object
`currentData` points to in place (for example `this.currentData.text = ...`),
and `setData` rebinds `currentData` to a freshly allocated spread object.  To
express aliasing, the button data objects live in an address-indexed store. -/

/-- Write one address of a store of button data objects. -/
def updStore (st : Nat → ButtonData) (a : Nat) (v : ButtonData) :
    Nat → ButtonData :=
  fun n => if n = a then v else st n

/-- The relevant part of a button creator's heap: the store of allocated
objects, the addresses held by `currentData` and `lastKnownData`, and the
next fresh address. -/
structure BHeap where
  store : Nat → ButtonData
  cur : Nat
  last : Nat
  next : Nat

/-- One observable action on the button creator's data: the in-place field
writes performed by `setEmoji`/`removeEmoji` (line 403/412), `setStyle` (line
421), `setDisabled` (line 429) and the input listeners for text (line 209)
and url (line 297); the snapshot replacement performed inside `_notifyUpdate`
(line 446); and the rebinding of `currentData` to a fresh merged object
performed by `setData` (line 798). -/
inductive BStep where
  | setText (v : String)
  | setStyle (v : String)
  | setEmoji (v : String)
  | setUrl (v : String)
  | setDisabled (b : Bool)
  | snapshotCopy
  | setDataMerge (p : BPatch)

/-- Apply an in-place update to the object `currentData` points to. -/
def writeCur (h : BHeap) (f : ButtonData → ButtonData) : BHeap :=
  BHeap.mk (updStore h.store h.cur (f (h.store h.cur))) h.cur h.last h.next

/-- Small-step semantics of `BStep` on the heap.  `snapshotCopy` models
`this.lastKnownData = JSON.parse(JSON.stringify(this.currentData))`: a deep
copy of the current object is placed at a fresh address, which `lastKnownData`
is rebound to (in `_notifyUpdate` this only happens when the diff is
non-empty; running it unconditionally only enlarges the set of mutation
sequences quantified over).  `setDataMerge` models
`this.currentData = { ...this.currentData, ...newData }`: the spread creates
a fresh object which `currentData` is rebound to. -/
def stepB : BStep → BHeap → BHeap
  | BStep.setText v, h =>
    writeCur h (fun d => ButtonData.mk v d.style d.emoji d.url d.disabled)
  | BStep.setStyle v, h =>
    writeCur h (fun d => ButtonData.mk d.text v d.emoji d.url d.disabled)
  | BStep.setEmoji v, h =>
    writeCur h (fun d => ButtonData.mk d.text d.style v d.url d.disabled)
  | BStep.setUrl v, h =>
    writeCur h (fun d => ButtonData.mk d.text d.style d.emoji v d.disabled)
  | BStep.setDisabled b, h =>
    writeCur h (fun d => ButtonData.mk d.text d.style d.emoji d.url b)
  | BStep.snapshotCopy, h =>
    BHeap.mk (updStore h.store h.next (h.store h.cur)) h.cur h.next (h.next + 1)
  | BStep.setDataMerge p, h =>
    BHeap.mk (updStore h.store h.next (mergeButton (h.store h.cur) p))
      h.next h.last (h.next + 1)

/-- Run a sequence of steps on the heap. -/
def runB (l : List BStep) (h : BHeap) : BHeap :=
  l.foldl (fun h s => stepB s h) h

/-- Heap well-formedness: both held addresses are allocated and distinct
(the constructor, lines 27-40, allocates `currentData` and then deep-copies
it into a fresh `lastKnownData`). -/
def BHeapWF (h : BHeap) : Prop :=
  h.cur < h.next ∧ h.last < h.next ∧ h.cur ≠ h.last

/-! ## Event traces of `_notifyUpdate` (for the ordering claim) -/

/-- Primitive actions of `_notifyUpdate`, in execution order: the snapshot
replacement (line 446) and the invocation of each registered `update` handler
by the `trigger` call (line 449 / `forEach` on the handler array). -/
inductive NStep (δ : Type) where
  | setSnapshot (snap : δ)
  | invoke (handler : Nat) (payload : List (String × JVal))

/-- The trace of primitive actions performed by one `_notifyUpdate()` call on
a creator with `n` registered `update` handlers: nothing when the diff is
empty; otherwise the snapshot replacement followed by the handler invocations
in registration order, each carrying the change set. -/
def notifyTrace {δ : Type} (diffFn : δ → δ → List (String × JVal))
    (s : CState δ) (n : Nat) : List (NStep δ) :=
  let changes := diffFn s.lastKnownData s.currentData
  if changes.length > 0 then
    NStep.setSnapshot s.currentData ::
      (List.range n).map (fun i => NStep.invoke i changes)
  else []

/-! ## Helper lemmas -/

/-- Characterization of `_notifyUpdate`: with an empty diff it is a no-op
publishing nothing; with a non-empty diff it installs the snapshot and
publishes exactly the diff. -/
theorem notifyUpdate_eq {δ : Type} (f : δ → δ → List (String × JVal))
    (s : CState δ) :
    notifyUpdate f s =
      (if (f s.lastKnownData s.currentData).isEmpty then (s, [])
       else (CState.mk s.currentData s.currentData,
         [f s.lastKnownData s.currentData])) := by
  unfold notifyUpdate
  rcases h : f s.lastKnownData s.currentData with _ | ⟨a, t⟩ <;> simp [h]

/-- The button differ is reflexive. -/
theorem buttonGetChangedData_refl (d : ButtonData) :
    buttonGetChangedData d d = [] := by
  simp [buttonGetChangedData]

/-- The select-menu differ is reflexive. -/
theorem selectGetChangedData_refl (d : SelectData) :
    selectGetChangedData d d = [] := by
  simp [selectGetChangedData]

/-- The embed differ is reflexive. -/
theorem embedGetChangedData_refl (d : EmbedData) :
    embedGetChangedData d d = [] := by
  simp [embedGetChangedData, encodeEmbed, compareObjects, comparePairs,
    jsHasOwn, jsGetOwn, typeofObject, isArray, jsStrictEq, forInKeys, jsSlice1]

/-- Dropping the artificial leading dot of a top-level field path. -/
theorem jsSlice1_dot (k : String) : jsSlice1 ("" ++ "." ++ k) = k := by
  rcases k with ⟨l⟩
  rfl

/-- A kept entry keeps its key. -/
theorem stripOne_key (k : String) (v : JVal) (kv : String × JVal)
    (h : stripOne k v = some kv) : kv.1 = k := by
  unfold stripOne at h
  split at h
  · cases h
  · split at h
    · split at h
      · cases h
      · injection h with h2
        subst h2
        rfl
    · injection h with h2
      subst h2
      rfl

/-- Looking up a key in the stripped list skips entries with other keys. -/
theorem lookup_strip_skip (k1 k : String) (v1 : JVal)
    (rest : List (String × JVal)) (hne : (k == k1) = false) :
    List.lookup k (stripEmbedJson ((k1, v1) :: rest)) =
      List.lookup k (stripEmbedJson rest) := by
  simp only [stripEmbedJson]
  rcases h : stripOne k1 v1 with _ | kv
  · rfl
  · have hk := stripOne_key k1 v1 kv h
    rcases kv with ⟨k2, v2⟩
    simp only at hk
    subst hk
    simp [List.lookup, hne]

/-- Looking up a key whose entry the strip keeps unchanged. -/
theorem lookup_strip_head (k : String) (v : JVal) (v2 : JVal)
    (rest : List (String × JVal)) (h : stripOne k v = some (k, v2)) :
    List.lookup k (stripEmbedJson ((k, v) :: rest)) = some v2 := by
  simp only [stripEmbedJson, h]
  simp [List.lookup]

/-- An entry surviving the strip carries no `undefined` and, when it is a
nested object, is non-empty and free of `undefined`-valued sub-keys. -/
theorem stripOne_clean (k : String) (v : JVal) (kv : String × JVal)
    (h : stripOne k v = some kv) :
    isUndef kv.2 = false ∧
      ∀ sl, kv.2 = JVal.obj sl →
        sl ≠ [] ∧ ∀ p ∈ sl, isUndef p.2 = false := by
  rcases kv with ⟨k2, v2⟩
  rcases v with s | n | b | _ | _ | _ | sl0 | arl <;>
    simp [stripOne, isUndef] at h
  · obtain ⟨h1, h2⟩ := h
    subst h1
    subst h2
    exact ⟨rfl, fun sl hsl => absurd hsl (by simp)⟩
  · obtain ⟨h1, h2⟩ := h
    subst h1
    subst h2
    exact ⟨rfl, fun sl hsl => absurd hsl (by simp)⟩
  · obtain ⟨h1, h2⟩ := h
    subst h1
    subst h2
    exact ⟨rfl, fun sl hsl => absurd hsl (by simp)⟩
  · obtain ⟨h1, h2⟩ := h
    subst h1
    subst h2
    exact ⟨rfl, fun sl hsl => absurd hsl (by simp)⟩
  · obtain ⟨h1, h2⟩ := h
    subst h1
    subst h2
    exact ⟨rfl, fun sl hsl => absurd hsl (by simp)⟩
  · obtain ⟨hne, h2, h3⟩ := h
    subst h2
    subst h3
    refine ⟨rfl, ?_⟩
    intro sl hsl
    injection hsl with h5
    subst h5
    constructor
    · obtain ⟨a, b, hab, hv⟩ := hne
      intro hemp
      have hall := List.filter_eq_nil_iff.mp hemp (a, b) hab
      simp [hv] at hall
    · intro p hp
      have hpf := (List.mem_filter.mp hp).2
      rcases p with ⟨pk, pv⟩
      rcases pv with s | n | b | _ | _ | _ | a | c <;> simp_all [isUndef]
  · obtain ⟨h1, h2⟩ := h
    subst h1
    subst h2
    exact ⟨rfl, fun sl hsl => absurd hsl (by simp)⟩

/-- What survives the strip: no `undefined` values, and every kept nested
object is non-empty and free of `undefined`-valued sub-keys. -/
theorem stripEmbedJson_clean (l : List (String × JVal)) :
    ∀ kv ∈ stripEmbedJson l,
      isUndef kv.2 = false ∧
      ∀ sl, kv.2 = JVal.obj sl →
        sl ≠ [] ∧ ∀ p ∈ sl, isUndef p.2 = false := by
  induction l with
  | nil => intro kv hkv; simp [stripEmbedJson] at hkv
  | cons hd rest ih =>
    rcases hd with ⟨k, v⟩
    intro kv hkv
    simp only [stripEmbedJson] at hkv
    cases hso : stripOne k v with
    | none =>
      rw [hso] at hkv
      exact ih kv hkv
    | some kv2 =>
      rw [hso] at hkv
      rcases List.mem_cons.mp hkv with heq | hmem
      · subst heq
        exact stripOne_clean k v kv hso
      · exact ih kv hmem

/-- Parsing a non-empty all-hex-digit string yields its hexadecimal value. -/
theorem jsParseIntHexChars_all (ds : List Char) (hne : ds ≠ [])
    (hhex : ∀ c ∈ ds, isHexDigitC c = true) :
    jsParseIntHexChars ds = some (hexListVal ds) := by
  unfold jsParseIntHexChars
  have htw : ds.takeWhile isHexDigitC = ds :=
    List.takeWhile_eq_self_iff.mpr hhex
  rw [htw]
  simp [List.isEmpty_iff, hne]

/-- One heap step neither changes the contents of an allocated address other
than the one `currentData` holds, nor makes `currentData` or `next` point at
it. -/
theorem stepB_preserve (s : BStep) (h : BHeap) (r : Nat)
    (h1 : r < h.next) (h2 : r ≠ h.cur) :
    (stepB s h).store r = h.store r ∧
      r < (stepB s h).next ∧ r ≠ (stepB s h).cur := by
  have hnext : r ≠ h.next := Nat.ne_of_lt h1
  cases s <;>
    simp [stepB, writeCur, updStore, h2, hnext, Nat.lt_succ_of_lt h1, h1]

/-- Running any step sequence leaves every allocated non-current address
untouched. -/
theorem runB_preserve (l : List BStep) (h : BHeap) (r : Nat)
    (h1 : r < h.next) (h2 : r ≠ h.cur) :
    (runB l h).store r = h.store r := by
  induction l generalizing h with
  | nil => rfl
  | cons s rest ih =>
    obtain ⟨hs, hn, hc⟩ := stepB_preserve s h r h1 h2
    calc (runB (s :: rest) h).store r = (runB rest (stepB s h)).store r := rfl
    _ = (stepB s h).store r := ih (stepB s h) hn hc
    _ = h.store r := hs

/-- `forEach` with no throwing handler invokes every handler. -/
theorem jsForEach_all_ok (hs : List (JVal → Except String Unit))
    (payload : JVal) (hok : ∀ h ∈ hs, h payload = Except.ok ()) :
    jsForEach hs payload = (hs.length, none) := by
  induction hs with
  | nil => rfl
  | cons h rest ih =>
    have hh := hok h (List.mem_cons_self h rest)
    have hr := ih (fun g hg => hok g (List.mem_cons_of_mem h hg))
    simp [jsForEach, hh, hr]

/-- `forEach` stops at the first throwing handler: with `pre` all returning
normally and `h` throwing, exactly the handlers up to and including `h` are
invoked and the exception escapes the `trigger` call. -/
theorem jsForEach_throws (pre post : List (JVal → Except String Unit))
    (h : JVal → Except String Unit) (payload : JVal) (e : String)
    (hok : ∀ g ∈ pre, g payload = Except.ok ())
    (hthrow : h payload = Except.error e) :
    jsForEach (pre ++ h :: post) payload = (pre.length + 1, some e) := by
  induction pre with
  | nil => simp [jsForEach, hthrow]
  | cons g rest ih =>
    have hg := hok g (List.mem_cons_self g rest)
    have hr := ih (fun g2 hg2 => hok g2 (List.mem_cons_of_mem g hg2))
    simp [jsForEach, hg, hr]

/-! ## The claims -/

/-- Claim C1: for every creator (button, select-menu, embed), `_notifyUpdate`
computes the diff of the current data against the last-known snapshot; iff
the diff is non-empty it first replaces the snapshot with a deep copy of the
current data and then publishes a single `update` event carrying exactly the
diff; with an empty diff nothing is published and the snapshot is left
unchanged. -/
theorem claim_C1 :
    (∀ s : CState ButtonData,
      notifyUpdate buttonGetChangedData s =
        (if (buttonGetChangedData s.lastKnownData s.currentData).isEmpty
         then (s, [])
         else (CState.mk s.currentData s.currentData,
           [buttonGetChangedData s.lastKnownData s.currentData]))) ∧
    (∀ s : CState SelectData,
      notifyUpdate selectGetChangedData s =
        (if (selectGetChangedData s.lastKnownData s.currentData).isEmpty
         then (s, [])
         else (CState.mk s.currentData s.currentData,
           [selectGetChangedData s.lastKnownData s.currentData]))) ∧
    (∀ s : CState EmbedData,
      notifyUpdate embedGetChangedData s =
        (if (embedGetChangedData s.lastKnownData s.currentData).isEmpty
         then (s, [])
         else (CState.mk s.currentData s.currentData,
           [embedGetChangedData s.lastKnownData s.currentData]))) :=
  ⟨fun s => notifyUpdate_eq buttonGetChangedData s,
   fun s => notifyUpdate_eq selectGetChangedData s,
   fun s => notifyUpdate_eq embedGetChangedData s⟩

/-- Claim C2: a scalar field of the button or select-menu schema is included
in the computed change set iff its snapshot and current values differ, and
then it is bound to the current value; for two data objects differing only in
one scalar field the change set is exactly that field bound to the new
value. -/
theorem claim_C2 :
    (∀ last curr : ButtonData,
      List.lookup "text" (buttonGetChangedData last curr) =
        (if curr.text = last.text then none else some (JVal.str curr.text)) ∧
      List.lookup "style" (buttonGetChangedData last curr) =
        (if curr.style = last.style then none else some (JVal.str curr.style)) ∧
      List.lookup "emoji" (buttonGetChangedData last curr) =
        (if curr.emoji = last.emoji then none else some (JVal.str curr.emoji)) ∧
      List.lookup "url" (buttonGetChangedData last curr) =
        (if curr.url = last.url then none else some (JVal.str curr.url)) ∧
      List.lookup "disabled" (buttonGetChangedData last curr) =
        (if curr.disabled = last.disabled then none
         else some (JVal.bool curr.disabled))) ∧
    (∀ last curr : SelectData,
      List.lookup "placeholder" (selectGetChangedData last curr) =
        (if curr.placeholder = last.placeholder then none
         else some (JVal.str curr.placeholder)) ∧
      List.lookup "disabled" (selectGetChangedData last curr) =
        (if curr.disabled = last.disabled then none
         else some (JVal.bool curr.disabled)) ∧
      List.lookup "value" (selectGetChangedData last curr) =
        (if curr.value = last.value then none
         else some (encodeSValue curr.value))) ∧
    (∀ last curr : ButtonData,
      (curr.text ≠ last.text → curr.style = last.style →
        curr.emoji = last.emoji → curr.url = last.url →
        curr.disabled = last.disabled →
        buttonGetChangedData last curr = [("text", JVal.str curr.text)]) ∧
      (curr.text = last.text → curr.style ≠ last.style →
        curr.emoji = last.emoji → curr.url = last.url →
        curr.disabled = last.disabled →
        buttonGetChangedData last curr = [("style", JVal.str curr.style)]) ∧
      (curr.text = last.text → curr.style = last.style →
        curr.emoji ≠ last.emoji → curr.url = last.url →
        curr.disabled = last.disabled →
        buttonGetChangedData last curr = [("emoji", JVal.str curr.emoji)]) ∧
      (curr.text = last.text → curr.style = last.style →
        curr.emoji = last.emoji → curr.url ≠ last.url →
        curr.disabled = last.disabled →
        buttonGetChangedData last curr = [("url", JVal.str curr.url)]) ∧
      (curr.text = last.text → curr.style = last.style →
        curr.emoji = last.emoji → curr.url = last.url →
        curr.disabled ≠ last.disabled →
        buttonGetChangedData last curr =
          [("disabled", JVal.bool curr.disabled)])) ∧
    (∀ last curr : SelectData,
      (curr.placeholder ≠ last.placeholder → curr.disabled = last.disabled →
        curr.value = last.value → curr.options = last.options →
        selectGetChangedData last curr =
          [("placeholder", JVal.str curr.placeholder)]) ∧
      (curr.placeholder = last.placeholder → curr.disabled ≠ last.disabled →
        curr.value = last.value → curr.options = last.options →
        selectGetChangedData last curr =
          [("disabled", JVal.bool curr.disabled)]) ∧
      (curr.placeholder = last.placeholder → curr.disabled = last.disabled →
        curr.value ≠ last.value → curr.options = last.options →
        selectGetChangedData last curr =
          [("value", encodeSValue curr.value)])) := by
  refine ⟨?_, ?_, ?_, ?_⟩
  · intro last curr
    by_cases h1 : curr.text = last.text <;>
      by_cases h2 : curr.style = last.style <;>
      by_cases h3 : curr.emoji = last.emoji <;>
      by_cases h4 : curr.url = last.url <;>
      by_cases h5 : curr.disabled = last.disabled <;>
      simp [buttonGetChangedData, List.lookup, h1, h2, h3, h4, h5]
  · intro last curr
    by_cases h1 : curr.placeholder = last.placeholder <;>
      by_cases h2 : curr.disabled = last.disabled <;>
      by_cases h3 : curr.value = last.value <;>
      by_cases h4 : jsonStr (encodeSOptions curr.options) =
        jsonStr (encodeSOptions last.options) <;>
      simp [selectGetChangedData, List.lookup, h1, h2, h3, h4]
  · intro last curr
    refine ⟨?_, ?_, ?_, ?_, ?_⟩ <;>
      · intro h1 h2 h3 h4 h5
        simp [buttonGetChangedData, h1, h2, h3, h4, h5]
  · intro last curr
    refine ⟨?_, ?_, ?_⟩ <;>
      · intro h1 h2 h3 h4
        simp [selectGetChangedData, h1, h2, h3, h4]

/-- Witness for C2: a button whose style alone changed diffs to exactly the
style binding; a select menu whose placeholder alone changed diffs to exactly
the placeholder binding. -/
theorem claim_C2_witness :
    buttonGetChangedData (ButtonData.mk "Button" "primary" "" "" false)
        (ButtonData.mk "Button" "danger" "" "" false) =
      [("style", JVal.str "danger")] ∧
    selectGetChangedData (SelectData.mk "Select an option" [] false none)
        (SelectData.mk "Pick one" [] false none) =
      [("placeholder", JVal.str "Pick one")] :=
  ⟨(claim_C2.2.2.1 (ButtonData.mk "Button" "primary" "" "" false)
      (ButtonData.mk "Button" "danger" "" "" false)).2.1
      (by decide) (by decide) (by decide) (by decide) (by decide),
   (claim_C2.2.2.2 (SelectData.mk "Select an option" [] false none)
      (SelectData.mk "Pick one" [] false none)).1
      (by decide) (by decide) (by decide) (by decide)⟩

/-- Claim C3: mutating the live current data after a snapshot has been taken
never changes the observable field values of the previously taken snapshot:
over any sequence of mutation steps (in-place field writes to the current
object, snapshot copies, `setData` rebindings), the object the snapshot
address points at keeps its field values. -/
theorem claim_C3 (l : List BStep) (h : BHeap) (hwf : BHeapWF h) :
    (runB l h).store h.last = h.store h.last :=
  runB_preserve l h h.last hwf.2.1 (fun he => hwf.2.2 he.symm)

/-- The initial heap used to witness C3: the current object at address 0, the
snapshot object at address 1. -/
def bWitnessHeap : BHeap :=
  BHeap.mk (fun _ => ButtonData.mk "Button" "primary" "" "" false) 0 1 2

/-- Witness for C3: after a text write, a snapshot replacement and a style
write, the object at the original snapshot address is untouched. -/
theorem claim_C3_witness :
    BHeapWF bWitnessHeap ∧
    (runB [BStep.setText "X", BStep.snapshotCopy, BStep.setStyle "danger"]
        bWitnessHeap).store bWitnessHeap.last =
      bWitnessHeap.store bWitnessHeap.last :=
  ⟨⟨by decide, by decide, by decide⟩,
   claim_C3 [BStep.setText "X", BStep.snapshotCopy, BStep.setStyle "danger"]
     bWitnessHeap ⟨by decide, by decide, by decide⟩⟩

/-- Counterexample to C4 as stated: the button creator's diff loop visits
only the keys of the current data, so a field present in the snapshot but
absent from the current data (here `text`) is silently omitted from the
change set instead of being emitted with a removed marker. -/
theorem claim_C4_counterexample :
    buttonGetChangedDataG [("text", JVal.str "removed")] [] = [] ∧
    jsHasOwn (JVal.obj [("text", JVal.str "removed")]) "text" = true :=
  ⟨rfl, rfl⟩

/-- Claim C4 as amended: only the embed creator's diff emits an explicit
removed marker (the value `undefined`) for a field present in the snapshot
but absent from the current data; the button creator's diff never emits a
key absent from the current data, and the select-menu creator's diff only
ever emits its four schema keys. -/
theorem claim_C4_amended :
    (∀ (prevl currl : List (String × JVal)) (k : String),
      jsHasOwn (JVal.obj prevl) k = true →
      jsHasOwn (JVal.obj currl) k = false →
      (k, JVal.undef) ∈ compareObjects (JVal.obj prevl) (JVal.obj currl) "") ∧
    (∀ (last curr : List (String × JVal)) (k : String),
      jsHasOwn (JVal.obj curr) k = false →
      ¬ ∃ v, (k, v) ∈ buttonGetChangedDataG last curr) ∧
    (∀ (last curr : SelectData) (kv : String × JVal),
      kv ∈ selectGetChangedData last curr →
      kv.1 ∈ ["placeholder", "disabled", "value", "options"]) := by
  refine ⟨?_, ?_, ?_⟩
  · intro prevl currl k hp hc
    have hk : k ∈ forInKeys (JVal.obj prevl) := by
      simp only [forInKeys]
      simp only [jsHasOwn, List.any_eq_true] at hp
      obtain ⟨kv, hkv, hfst⟩ := hp
      simp only [decide_eq_true_eq] at hfst
      exact List.mem_map.mpr ⟨kv, hkv, hfst⟩
    have hmem : (jsSlice1 ("" ++ "." ++ k), JVal.undef) ∈
        (forInKeys (JVal.obj prevl)).filterMap (fun k2 =>
          if jsHasOwn (JVal.obj currl) k2 then none
          else some (jsSlice1 ("" ++ "." ++ k2), JVal.undef)) :=
      List.mem_filterMap.mpr ⟨k, hk, by rw [hc]; rfl⟩
    rw [jsSlice1_dot] at hmem
    have hred : compareObjects (JVal.obj prevl) (JVal.obj currl) "" =
        comparePairs (JVal.obj prevl) currl "" ++
        (forInKeys (JVal.obj prevl)).filterMap (fun k2 =>
          if jsHasOwn (JVal.obj currl) k2 then none
          else some (jsSlice1 ("" ++ "." ++ k2), JVal.undef)) := by
      simp [compareObjects, typeofObject, isArray]
    rw [hred]
    exact List.mem_append_right _ hmem
  · intro last curr k hc
    rintro ⟨v, hv⟩
    have hmemc : (k, v) ∈ curr := List.mem_of_mem_filter hv
    simp only [jsHasOwn, List.any_eq_false] at hc
    have := hc (k, v) hmemc
    simp at this
  · intro last curr kv hkv
    simp only [selectGetChangedData] at hkv
    split_ifs at hkv <;> simp_all <;> aesop

/-- Witness for the amended C4: a field only the snapshot has is emitted by
the embed differ with the `undefined` removed marker. -/
theorem claim_C4_witness :
    ("legacy", JVal.undef) ∈ compareObjects
      (JVal.obj [("legacy", JVal.str "x")]) (JVal.obj []) "" :=
  claim_C4_amended.1 [("legacy", JVal.str "x")] [] "legacy" rfl rfl

/-- Counterexample to C5 as stated: `setData` with a partial object that
changes the text merges it into the current data, yet publishes no `update`
event and leaves the snapshot untouched. -/
theorem claim_C5_counterexample :
    mergeButton (ButtonData.mk "Button" "primary" "" "" false)
        (BPatch.mk (some "Changed") none none none none) ≠
      ButtonData.mk "Button" "primary" "" "" false ∧
    (buttonSetData
      (CState.mk (ButtonData.mk "Button" "primary" "" "" false)
        (ButtonData.mk "Button" "primary" "" "" false))
      (BPatch.mk (some "Changed") none none none none)).2 = [] ∧
    (buttonSetData
      (CState.mk (ButtonData.mk "Button" "primary" "" "" false)
        (ButtonData.mk "Button" "primary" "" "" false))
      (BPatch.mk (some "Changed") none none none none)).1.lastKnownData =
      ButtonData.mk "Button" "primary" "" "" false :=
  ⟨by decide, rfl, rfl⟩

/-- Claim C5 as amended: in every creator, `setData(partial)` merges the
partial into the current data and re-renders, but it does not invoke the
change notifier: no `update` event is published by `setData` itself, and the
snapshot is left unchanged (the merged changes are only reported by the next
mutation that calls `_notifyUpdate`). -/
theorem claim_C5_amended :
    (∀ (s : CState ButtonData) (p : BPatch),
      (buttonSetData s p).1.currentData = mergeButton s.currentData p ∧
      (buttonSetData s p).1.lastKnownData = s.lastKnownData ∧
      (buttonSetData s p).2 = []) ∧
    (∀ (s : CState SelectData) (p : SPatch),
      (selectSetData s p).1.currentData = mergeSelect s.currentData p ∧
      (selectSetData s p).1.lastKnownData = s.lastKnownData ∧
      (selectSetData s p).2 = []) ∧
    (∀ (s : CState EmbedData) (p : EPatch),
      (embedSetData s p).1.currentData = mergeEmbed s.currentData p ∧
      (embedSetData s p).1.lastKnownData = s.lastKnownData ∧
      (embedSetData s p).2 = []) :=
  ⟨fun _ _ => ⟨rfl, rfl, rfl⟩, fun _ _ => ⟨rfl, rfl, rfl⟩,
   fun _ _ => ⟨rfl, rfl, rfl⟩⟩

/-- A handler that throws. -/
def throwingHandler : JVal → Except String Unit := fun _ => Except.error "boom"

/-- A handler that returns normally. -/
def okHandler : JVal → Except String Unit := fun _ => Except.ok ()

/-- Counterexample to C6 as stated: with two registered handlers of which
the first throws, `trigger`'s `forEach` invokes only one handler — the
second handler of the same trigger call is never invoked. -/
theorem claim_C6_counterexample :
    jsForEach [throwingHandler, okHandler] JVal.null = (1, some "boom") ∧
    ([throwingHandler, okHandler] : List (JVal → Except String Unit)).length
      = 2 :=
  ⟨rfl, rfl⟩

/-- Claim C6 as amended: `trigger` runs handlers in order with no isolation:
when no handler throws all of them are invoked, and an exception from one
handler aborts the iteration — exactly the handlers up to and including the
throwing one are invoked, and the exception escapes the `trigger` call. -/
theorem claim_C6_amended :
    (∀ (hs : List (JVal → Except String Unit)) (payload : JVal),
      (∀ h ∈ hs, h payload = Except.ok ()) →
      jsForEach hs payload = (hs.length, none)) ∧
    (∀ (pre post : List (JVal → Except String Unit))
        (h : JVal → Except String Unit) (payload : JVal) (e : String),
      (∀ g ∈ pre, g payload = Except.ok ()) → h payload = Except.error e →
      jsForEach (pre ++ h :: post) payload = (pre.length + 1, some e)) :=
  ⟨jsForEach_all_ok, jsForEach_throws⟩

/-- Witness for the amended C6: one normal handler, then a throwing one,
then another handler: two invocations, the exception escapes, the third
handler is skipped. -/
theorem claim_C6_witness :
    jsForEach [okHandler, throwingHandler, okHandler] JVal.null =
      (2, some "boom") :=
  claim_C6_amended.2 [okHandler] [okHandler] throwingHandler JVal.null "boom"
    (by
      intro g hg
      rw [List.mem_singleton] at hg
      subst hg
      rfl)
    rfl

/-- Claim C7: a select-menu mutation targeting an out-of-range index is a
silent no-op: `deleteOption(i)` with `i < 0` or `i >= options.length`, and
`moveOption(i, d)` whose source or destination index is out of range, leave
the state unchanged and publish no `update` event. -/
theorem claim_C7 :
    (∀ (s : CState SelectData) (i : Int),
      (i < 0 ∨ (s.currentData.options.length : Int) ≤ i) →
      deleteOption s i = (s, [])) ∧
    (∀ (s : CState SelectData) (i d : Int),
      ((i < 0 ∨ (s.currentData.options.length : Int) ≤ i) ∨
       (i + d < 0 ∨ (s.currentData.options.length : Int) ≤ i + d)) →
      moveOption s i d = (s, [])) := by
  constructor
  · intro s i hi
    unfold deleteOption
    rw [if_neg (by omega)]
  · intro s i d hid
    unfold moveOption
    by_cases h1 : 0 ≤ i ∧ i < (s.currentData.options.length : Int)
    · rw [if_pos h1, if_neg (by omega)]
    · rw [if_neg h1]

/-- The two-option select menu used to witness C7 (Scenario D). -/
def wSelData : SelectData :=
  SelectData.mk "Select an option"
    [SOption.mk "Option 1" "Option 1" "option-1" "" "",
     SOption.mk "Option 2" "Option 2" "option-2" "" ""] false none

/-- Witness for C7: moving the first option up (`moveOption(0, -1)`) and
deleting at the length (`deleteOption(2)`) both change nothing and publish
nothing. -/
theorem claim_C7_witness :
    moveOption (CState.mk wSelData wSelData) 0 (-1) =
      (CState.mk wSelData wSelData, []) ∧
    deleteOption (CState.mk wSelData wSelData) 2 =
      (CState.mk wSelData wSelData, []) :=
  ⟨claim_C7.2 (CState.mk wSelData wSelData) 0 (-1)
      (Or.inr (Or.inl (by decide))),
   claim_C7.1 (CState.mk wSelData wSelData) 2 (Or.inr (by decide))⟩

/-- Claim C8: the embed creator's `toJSON()` is a pure projection: it leaves
the creator state unchanged, converts a `#`-prefixed hex color string to the
integer obtained by parsing the hex digits base 16, and strips every
`undefined`-valued key — including `undefined` sub-keys of nested objects
and nested objects left empty — from the returned wire-format object. -/
theorem claim_C8 (s : CState EmbedData) (now : String) :
    (embedToJSONMethod s now).1 = s ∧
    (∀ ds : List Char, s.currentData.color.data = '#' :: ds → ds ≠ [] →
      (∀ c ∈ ds, isHexDigitC c = true) →
      List.lookup "color" (embedToJSONMethod s now).2 =
        some (JVal.num (Int.ofNat (hexListVal ds)))) ∧
    (∀ kv ∈ (embedToJSONMethod s now).2,
      isUndef kv.2 = false ∧
      ∀ sl, kv.2 = JVal.obj sl →
        sl ≠ [] ∧ ∀ p ∈ sl, isUndef p.2 = false) := by
  refine ⟨rfl, ?_, ?_⟩
  · intro ds hshape hne hhex
    have hcol : ¬ s.currentData.color = "" := by
      intro he
      have hd : ("" : String).data = [] := rfl
      rw [he, hd] at hshape
      cases hshape
    show List.lookup "color"
      (stripEmbedJson (buildEmbedJson s.currentData now)) = _
    unfold buildEmbedJson
    rw [lookup_strip_skip _ _ _ _ (by decide)]
    rw [lookup_strip_skip _ _ _ _ (by decide)]
    have hrep : jsReplaceFirstHash ('#' :: ds) = ds := by
      simp [jsReplaceFirstHash]
    rw [if_neg hcol, hshape, hrep, jsParseIntHexChars_all ds hne hhex]
    rw [lookup_strip_head "color" _ (JVal.num (Int.ofNat (hexListVal ds))) _
      (by rfl)]
  · intro kv hkv
    exact stripEmbedJson_clean _ kv hkv

/-- The embed data used to witness C8. -/
def wEmbedData : EmbedData :=
  EmbedData.mk "Title" "Description" "#5865F2" (EAuthor.mk "Author Name" "")
    "" "" [] (EFooter.mk "Footer Text" false)

/-- Witness for C8: the default embed color `#5865F2` is exported as the
base-16 value of its digits. -/
theorem claim_C8_witness :
    List.lookup "color"
        (embedToJSONMethod (CState.mk wEmbedData wEmbedData) "now").2 =
      some (JVal.num (Int.ofNat (hexListVal ['5', '8', '6', '5', 'F', '2']))) :=
  (claim_C8 (CState.mk wEmbedData wEmbedData) "now").2.1
    ['5', '8', '6', '5', 'F', '2'] (by decide) (by decide) (by decide)

/-- Counterexample to C9 as stated: `on` with the event name `"toString"`,
which is not `"update"`, is not a silent no-op: the truthiness guard
`if (this.eventHandlers[event])` finds the inherited `Object.prototype`
member, and the subsequent `push` call raises a TypeError. -/
theorem claim_C9_counterexample :
    busOn (EventHandlers.mk []) "toString" 0 =
      Except.error JsTypeError.notAFunction ∧
    "toString" ≠ "update" :=
  ⟨rfl, by decide⟩

/-- Claim C9 as amended: for every event name other than `"update"` that
does not collide with an `Object.prototype` property name, `on`, `off` and
`trigger` are silent no-ops that store nothing, invoke nothing and leave the
handler registry unchanged; names inherited from `Object.prototype` (such as
`"toString"`) instead raise a TypeError. -/
theorem claim_C9_amended :
    ∀ (b : EventHandlers) (e : String) (h : HandlerId),
      e ≠ "update" → ¬ e ∈ objectProtoProps →
      busOn b e h = Except.ok b ∧ busOff b e h = Except.ok b ∧
        busTrigger b e = Except.ok [] := by
  intro b e h hne hnp
  have hl : ehLookup b e = EHLookup.undef := by
    unfold ehLookup
    rw [if_neg hne, if_neg hnp]
  exact ⟨by simp [busOn, hl], by simp [busOff, hl], by simp [busTrigger, hl]⟩

/-- Witness for the amended C9: the event name `"close"` is ignored by all
three event-bus methods. -/
theorem claim_C9_witness :
    busOn (EventHandlers.mk [7]) "close" 3 = Except.ok (EventHandlers.mk [7]) ∧
    busOff (EventHandlers.mk [7]) "close" 3 =
      Except.ok (EventHandlers.mk [7]) ∧
    busTrigger (EventHandlers.mk [7]) "close" = Except.ok [] :=
  claim_C9_amended (EventHandlers.mk [7]) "close" 3 (by decide) (by decide)

/-- Claim C10: in `_notifyUpdate` the snapshot is replaced strictly before
any `update` handler is invoked (every handler invocation in the action
trace is preceded by the snapshot replacement); consequently at handler
time the snapshot equals the current data, so a re-entrant mutation is
diffed against the already-updated snapshot, and running `_notifyUpdate`
again immediately publishes nothing — the same change set is never
published twice. -/
theorem claim_C10 :
    (∀ (δ : Type) (f : δ → δ → List (String × JVal)) (s : CState δ)
        (n i hd : Nat) (pld : List (String × JVal)),
      (notifyTrace f s n)[i]? = some (NStep.invoke hd pld) →
      0 < i ∧ (notifyTrace f s n)[0]? =
        some (NStep.setSnapshot s.currentData)) ∧
    (∀ (δ : Type) (f : δ → δ → List (String × JVal)) (s : CState δ),
      (notifyUpdate f s).2 ≠ [] →
      (notifyUpdate f s).1.lastKnownData = (notifyUpdate f s).1.currentData) ∧
    (∀ s : CState ButtonData,
      (notifyUpdate buttonGetChangedData
        (notifyUpdate buttonGetChangedData s).1).2 = []) ∧
    (∀ s : CState SelectData,
      (notifyUpdate selectGetChangedData
        (notifyUpdate selectGetChangedData s).1).2 = []) ∧
    (∀ s : CState EmbedData,
      (notifyUpdate embedGetChangedData
        (notifyUpdate embedGetChangedData s).1).2 = []) := by
  refine ⟨?_, ?_, ?_, ?_, ?_⟩
  · intro δ f s n i hd pld hi
    unfold notifyTrace at hi ⊢
    by_cases hc : (f s.lastKnownData s.currentData).length > 0
    · rw [if_pos hc] at hi ⊢
      constructor
      · rcases i with _ | i
        · simp at hi
        · exact Nat.succ_pos i
      · simp
    · rw [if_neg hc] at hi
      simp at hi
  · intro δ f s hpub
    unfold notifyUpdate at hpub ⊢
    by_cases hc : (f s.lastKnownData s.currentData).length > 0
    · simp only [if_pos hc]
    · rw [if_neg hc] at hpub
      simp at hpub
  · intro s
    rw [notifyUpdate_eq buttonGetChangedData s]
    by_cases hemp : (buttonGetChangedData s.lastKnownData s.currentData).isEmpty
    · rw [if_pos hemp]
      rw [notifyUpdate_eq, if_pos hemp]
    · rw [if_neg hemp]
      rw [notifyUpdate_eq]
      simp [buttonGetChangedData_refl]
  · intro s
    rw [notifyUpdate_eq selectGetChangedData s]
    by_cases hemp : (selectGetChangedData s.lastKnownData s.currentData).isEmpty
    · rw [if_pos hemp]
      rw [notifyUpdate_eq, if_pos hemp]
    · rw [if_neg hemp]
      rw [notifyUpdate_eq]
      simp [selectGetChangedData_refl]
  · intro s
    rw [notifyUpdate_eq embedGetChangedData s]
    by_cases hemp : (embedGetChangedData s.lastKnownData s.currentData).isEmpty
    · rw [if_pos hemp]
      rw [notifyUpdate_eq, if_pos hemp]
    · rw [if_neg hemp]
      rw [notifyUpdate_eq]
      simp [embedGetChangedData_refl]

/-- Witness for C10: for a button whose style changed, the handler
invocation at trace position 1 is preceded by the snapshot replacement at
position 0. -/
theorem claim_C10_witness :
    0 < 1 ∧
    (notifyTrace buttonGetChangedData
      (CState.mk (ButtonData.mk "Button" "danger" "" "" false)
        (ButtonData.mk "Button" "primary" "" "" false)) 1)[0]? =
      some (NStep.setSnapshot (ButtonData.mk "Button" "danger" "" "" false)) :=
  claim_C10.1 ButtonData buttonGetChangedData
    (CState.mk (ButtonData.mk "Button" "danger" "" "" false)
      (ButtonData.mk "Button" "primary" "" "" false)) 1 1 0
    [("style", JVal.str "danger")] (by rfl)
